import Mathlib

/-!
Verification of the retailer_sales_forecasting_system repository.

The repository has two source files:

* `src/retailer_sales_forecasting_system/db/postgres.py` — `_load_repo_env`
  loads the repo-root `.env` file into the process environment without
  overriding already-set variables (python-dotenv, `override=False`), and
  `get_engine` resolves `DB_HOST`/`DB_PORT`/`DB_USER`/`DB_PASSWORD`/`DB_NAME`,
  validates the three mandatory keys, and builds a SQLAlchemy engine for
  `postgresql+psycopg2://{user}:{password}@{host}:{port}/{dbname}` with
  `pool_pre_ping=True, future=True`.
* `src/retailer_sales_forecasting_system/data/extract.py` — `load_sales`
  obtains an engine, runs `SELECT * FROM {table};` inside a
  `with engine.connect() as conn:` block, and coerces a `date` column to
  datetime if present.

The embedding below models a process environment and a `.env` file as
association lists of key/value pairs (lookup is first occurrence, matching
the unique-key OS environment), a pandas DataFrame as an association list
of named columns carrying a semantic dtype, and the database as a function
from SQL text to a query outcome. Connection lifecycle is made observable
as a trace of events.
-/

/-- Look a key up in an environment (association list); first match wins,
mirroring the unique-key process environment / `os.getenv`. -/
def envGet (e : List (String × String)) (k : String) : Option String :=
  (e.find? (fun kv => kv.1 == k)).map (·.2)

/-- `os.getenv(k, d)`: the value of `k`, or the default `d` when unset. -/
def os_getenv_default (e : List (String × String)) (k d : String) : String :=
  (envGet e k).getD d

/-- python-dotenv `load_dotenv(dotenv_path, override=False)` as called by
`_load_repo_env`: each key/value pair of the `.env` file is injected into
the process environment only when the key is not already set.  A missing
`.env` file is the empty list. -/
def load_dotenv (envFile : List (String × String)) (e : List (String × String)) :
    List (String × String) :=
  envFile.foldl (fun acc kv => if (envGet acc kv.1).isSome then acc else acc ++ [kv]) e

/-- `_load_repo_env`: locates the repo-root `.env` (modelled as the
`envFile` argument, since path resolution is outside the state we model)
and loads it without overriding the process environment. -/
def _load_repo_env (envFile : List (String × String)) (e : List (String × String)) :
    List (String × String) :=
  load_dotenv envFile e

/-- Python truthiness of an optional string, as used by
`[k for k, v in {...}.items() if not v]`: `None` and `""` are falsy,
every other string is truthy. -/
def truthy : Option String → Bool
  | none => false
  | some s => s != ""

/-- The SQLAlchemy `Engine` returned by `create_engine(url,
pool_pre_ping=True, future=True)`, as far as this repository configures
it: the URL and the two keyword flags. -/
structure EngineConfig where
  url : String
  pool_pre_ping : Bool
  future : Bool
deriving DecidableEq, Repr

/-- `get_engine()` from `db/postgres.py`.  The process environment and the
repo-root `.env` contents are explicit arguments; the raised
`ValueError` (the spec's `ConfigurationError`) becomes `Except.error`
carrying the message. -/
def get_engine (envFile procEnv : List (String × String)) : Except String EngineConfig :=
  let env := _load_repo_env envFile procEnv
  let host := os_getenv_default env "DB_HOST" "localhost"
  let port := os_getenv_default env "DB_PORT" "5433"
  let user := envGet env "DB_USER"
  let password := envGet env "DB_PASSWORD"
  let dbname := envGet env "DB_NAME"
  let missing :=
    ([("DB_USER", user), ("DB_PASSWORD", password), ("DB_NAME", dbname)].filter
      (fun kv => !truthy kv.2)).map (·.1)
  if !missing.isEmpty then
    Except.error ("Missing required env var(s): " ++ String.intercalate ", " missing ++
      ". Check repo-root .env.")
  else
    Except.ok
      { url := "postgresql+psycopg2://" ++ user.getD "" ++ ":" ++ password.getD "" ++ "@" ++
          host ++ ":" ++ port ++ "/" ++ dbname.getD ""
        pool_pre_ping := true
        future := true }

/-- Pandas semantic column types, as far as this repository distinguishes
them: `datetime64` against everything driver-inferred. -/
inductive Dtype where
  | object
  | int64
  | float64
  | boolean
  | datetime64
deriving DecidableEq, Repr

/-- A DataFrame column: a semantic dtype together with the cell payloads
(kept in their source representation). -/
structure Column where
  dtype : Dtype
  cells : List String
deriving DecidableEq, Repr

/-- `pd.to_datetime` applied to a column: the values are reinterpreted
under the `datetime64` semantic type; the cell payloads are carried over. -/
def pd_to_datetime (c : Column) : Column :=
  { c with dtype := Dtype.datetime64 }

/-- The column names of a DataFrame (`df.columns`), in order. -/
def dfColumns (df : List (String × Column)) : List String :=
  df.map (·.1)

/-- `df[name]`: the first column of that name, if any. -/
def dfGet (df : List (String × Column)) (name : String) : Option Column :=
  (df.find? (fun kv => kv.1 == name)).map (·.2)

/-- `df[name] = c` for a present column: replace the named column in
place, leaving every other column untouched. -/
def dfSet (df : List (String × Column)) (name : String) (c : Column) :
    List (String × Column) :=
  df.map (fun kv => if kv.1 == name then (kv.1, c) else kv)

/-- Observable connection-lifecycle events of one `load_sales` call. -/
inductive DbEvent where
  | connect
  | execQuery (sql : String)
  | close
deriving DecidableEq, Repr

/-- The SQL texts executed in a trace. -/
def queriesIn (evs : List DbEvent) : List String :=
  evs.filterMap (fun ev => match ev with
    | DbEvent.execQuery s => some s
    | _ => none)

/-- `DEFAULT_TABLE` from `data/extract.py`. -/
def DEFAULT_TABLE : String := "walmart_sales"

/-- `load_sales(table)` from `data/extract.py`.  The database is a function
from SQL text to a query outcome (rows or a driver error).  The returned
trace records the `with engine.connect()` scope: the connection is opened,
the query executed, and the scope closes the connection on success and on
a raised query error alike; when `get_engine` itself fails no connection is
ever opened.  The `date` coercion happens after the scope, on the
materialized frame. -/
def load_sales (envFile procEnv : List (String × String))
    (db : String → Except String (List (String × Column)))
    (table : String := DEFAULT_TABLE) :
    Except String (List (String × Column)) × List DbEvent :=
  match get_engine envFile procEnv with
  | Except.error m => (Except.error m, [])
  | Except.ok _engine =>
    let query := "SELECT * FROM " ++ table ++ ";"
    match db query with
    | Except.error m =>
      (Except.error m, [DbEvent.connect, DbEvent.execQuery query, DbEvent.close])
    | Except.ok df =>
      let df' :=
        match dfGet df "date" with
        | some c => dfSet df "date" (pd_to_datetime c)
        | none => df
      (Except.ok df', [DbEvent.connect, DbEvent.execQuery query, DbEvent.close])


/-- The mandatory keys, in the fixed order of the dict literal inside
`get_engine` (Python dicts preserve insertion order). -/
def MANDATORY_KEYS : List String := ["DB_USER", "DB_PASSWORD", "DB_NAME"]

/-- The mandatory keys that resolve to an absent or empty value in an
environment — the semantic characterization of the `missing` list that
`get_engine` builds from its pair literal. -/
def missingMandatoryKeys (env : List (String × String)) : List String :=
  MANDATORY_KEYS.filter (fun k => !truthy (envGet env k))

/-- A concrete process environment with all three mandatory keys set. -/
def sampleEnv : List (String × String) :=
  [("DB_USER", "alice"), ("DB_PASSWORD", "pw"), ("DB_NAME", "shop")]

/-- A concrete two-column result set whose first column is named `date`. -/
def sampleFrame : List (String × Column) :=
  [("date", ⟨Dtype.object, ["2010-02-05", "2010-02-12"]⟩),
   ("weekly_sales", ⟨Dtype.float64, ["24924.5", "46039.49"]⟩)]

/-- A concrete database returning `sampleFrame` for every query. -/
def sampleDb : String → Except String (List (String × Column)) :=
  fun _ => Except.ok sampleFrame

/-! ## Helper lemmas about environments and `.env` loading -/

theorem envGet_append (e₁ e₂ : List (String × String)) (k : String) :
    envGet (e₁ ++ e₂) k = (envGet e₁ k).or (envGet e₂ k) := by
  unfold envGet
  rw [List.find?_append]
  cases e₁.find? (fun kv => kv.1 == k) <;> simp

theorem load_dotenv_nil (e : List (String × String)) : load_dotenv [] e = e := rfl

theorem load_dotenv_cons (kv : String × String) (f e : List (String × String)) :
    load_dotenv (kv :: f) e =
      load_dotenv f (if (envGet e kv.1).isSome then e else e ++ [kv]) := by
  by_cases h : (envGet e kv.1).isSome <;> simp [load_dotenv, h]

theorem envGet_load_dotenv_of_some {k v : String}
    (f : List (String × String)) (e : List (String × String))
    (h : envGet e k = some v) :
    envGet (load_dotenv f e) k = some v := by
  induction f generalizing e with
  | nil => exact h
  | cons hd tl ih =>
    rw [load_dotenv_cons]
    by_cases hs : (envGet e hd.1).isSome
    · rw [if_pos hs]; exact ih e h
    · rw [if_neg hs]
      refine ih _ ?_
      rw [envGet_append, h]
      rfl

theorem isSome_envGet_load_dotenv {k : String}
    (f : List (String × String)) (e : List (String × String))
    (h : (envGet e k).isSome) :
    (envGet (load_dotenv f e) k).isSome := by
  obtain ⟨v, hv⟩ := Option.isSome_iff_exists.mp h
  rw [envGet_load_dotenv_of_some f e hv]
  rfl

theorem isSome_envGet_load_dotenv_of_mem {kv : String × String}
    (f : List (String × String)) (e : List (String × String))
    (h : kv ∈ f) :
    (envGet (load_dotenv f e) kv.1).isSome := by
  induction f generalizing e with
  | nil => cases h
  | cons hd tl ih =>
    rw [load_dotenv_cons]
    rcases List.mem_cons.mp h with rfl | h
    · by_cases hs : (envGet e kv.1).isSome
      · rw [if_pos hs]
        exact isSome_envGet_load_dotenv tl e hs
      · rw [if_neg hs]
        refine isSome_envGet_load_dotenv tl _ ?_
        rw [envGet_append]
        rw [Option.not_isSome_iff_eq_none] at hs
        rw [hs]
        simp [envGet]
    · exact ih _ h

theorem load_dotenv_eq_self (f e : List (String × String))
    (h : ∀ kv ∈ f, (envGet e kv.1).isSome) :
    load_dotenv f e = e := by
  induction f with
  | nil => rfl
  | cons hd tl ih =>
    rw [load_dotenv_cons, if_pos (h hd (List.mem_cons_self hd tl))]
    exact ih (fun kv hkv => h kv (List.mem_cons_of_mem hd hkv))

theorem load_dotenv_idem (f e : List (String × String)) :
    load_dotenv f (load_dotenv f e) = load_dotenv f e :=
  load_dotenv_eq_self f _ (fun kv hkv => isSome_envGet_load_dotenv_of_mem f e hkv)

/-! ## Helper lemmas about DataFrame column replacement -/

theorem dfSet_cons (hd : String × Column) (tl : List (String × Column))
    (m : String) (c : Column) :
    dfSet (hd :: tl) m c = (if hd.1 == m then (hd.1, c) else hd) :: dfSet tl m c := rfl

theorem dfGet_cons (hd : String × Column) (tl : List (String × Column)) (n : String) :
    dfGet (hd :: tl) n = if hd.1 == n then some hd.2 else dfGet tl n := by
  by_cases h : (hd.1 == n) = true
  · rw [if_pos h]
    unfold dfGet
    rw [List.find?_cons_of_pos (p := fun kv => kv.1 == n) tl h]
    rfl
  · rw [if_neg h]
    unfold dfGet
    rw [List.find?_cons_of_neg (p := fun kv => kv.1 == n) tl h]

theorem dfColumns_dfSet (df : List (String × Column)) (n : String) (c : Column) :
    dfColumns (dfSet df n c) = dfColumns df := by
  simp only [dfColumns, dfSet, List.map_map]
  refine List.map_congr_left ?_
  intro kv _
  by_cases h : kv.1 = n <;> simp [h]

theorem dfGet_dfSet_ne (df : List (String × Column)) (m n : String) (c : Column)
    (h : n ≠ m) :
    dfGet (dfSet df m c) n = dfGet df n := by
  induction df with
  | nil => rfl
  | cons hd tl ih =>
    rw [dfSet_cons, dfGet_cons, dfGet_cons]
    by_cases hm : hd.1 = m
    · have hn : ¬(m = n) := fun e => h e.symm
      simp [hm, hn, ih]
    · by_cases hn : hd.1 = n
      · have hm2 : ¬(n = m) := fun e => hm (hn.trans e)
        simp [hn, hm2]
      · simp [hm, hn, ih]

theorem dfGet_dfSet_self (df : List (String × Column)) (n : String) (c c' : Column)
    (h : dfGet df n = some c') :
    dfGet (dfSet df n c) n = some c := by
  induction df with
  | nil => simp [dfGet] at h
  | cons hd tl ih =>
    rw [dfSet_cons, dfGet_cons]
    rw [dfGet_cons] at h
    by_cases hn : hd.1 = n
    · simp [hn]
    · simp [hn] at h ⊢
      exact ih h

/-! ## Claim theorems -/

/-- Claim C1 (amended): for every environment in which `DB_USER`,
`DB_PASSWORD` and `DB_NAME` are all present and non-empty after loading the
repo `.env`, `get_engine` succeeds and builds the connection string exactly
of the form `postgresql+psycopg2://{user}:{password}@{host}:{port}/{dbname}`
from the resolved values (the SQLAlchemy URL naming the psycopg2 driver,
not the bare `postgresql://` scheme the claim states). -/
theorem get_engine_url_psycopg2_form (envFile procEnv : List (String × String))
    (u p d : String)
    (hu : envGet (_load_repo_env envFile procEnv) "DB_USER" = some u) (hu2 : u ≠ "")
    (hp : envGet (_load_repo_env envFile procEnv) "DB_PASSWORD" = some p) (hp2 : p ≠ "")
    (hd : envGet (_load_repo_env envFile procEnv) "DB_NAME" = some d) (hd2 : d ≠ "") :
    get_engine envFile procEnv =
      Except.ok
        { url := "postgresql+psycopg2://" ++ u ++ ":" ++ p ++ "@" ++
            os_getenv_default (_load_repo_env envFile procEnv) "DB_HOST" "localhost" ++ ":" ++
            os_getenv_default (_load_repo_env envFile procEnv) "DB_PORT" "5433" ++ "/" ++ d
          pool_pre_ping := true
          future := true } := by
  simp [get_engine, hu, hp, hd, truthy, hu2, hp2, hd2]

/-- Claim C1, counterexample to the claim as stated: on a fully configured
environment the produced URL uses the `postgresql+psycopg2://` scheme, not
the claimed `postgresql://` scheme. -/
theorem get_engine_url_scheme_cex :
    (get_engine [] sampleEnv).toOption.map EngineConfig.url =
      some "postgresql+psycopg2://alice:pw@localhost:5433/shop" ∧
    (get_engine [] sampleEnv).toOption.map EngineConfig.url ≠
      some "postgresql://alice:pw@localhost:5433/shop" := by
  refine ⟨rfl, ?_⟩
  intro h
  simp [sampleEnv, get_engine, _load_repo_env, load_dotenv, envGet, os_getenv_default,
    truthy, Except.toOption] at h

/-- Claim C1, witness: the amended theorem applied to a concrete
fully-configured environment. -/
theorem get_engine_url_psycopg2_form_witness :
    envGet (_load_repo_env [] sampleEnv) "DB_USER" = some "alice" ∧
    get_engine [] sampleEnv =
      Except.ok { url := "postgresql+psycopg2://alice:pw@localhost:5433/shop"
                  pool_pre_ping := true
                  future := true } :=
  ⟨rfl, get_engine_url_psycopg2_form [] sampleEnv "alice" "pw" "shop"
    rfl (by decide) rfl (by decide) rfl (by decide)⟩

/-- Claim C2: whenever some mandatory key resolves to an absent or empty
value, `get_engine` fails with the configuration error, returns no handle,
and the message lists exactly the missing mandatory keys — every missing
key and no present key. -/
theorem get_engine_missing_error_message (envFile procEnv : List (String × String))
    (h : missingMandatoryKeys (_load_repo_env envFile procEnv) ≠ []) :
    get_engine envFile procEnv =
      Except.error ("Missing required env var(s): " ++
        String.intercalate ", " (missingMandatoryKeys (_load_repo_env envFile procEnv)) ++
        ". Check repo-root .env.") ∧
    ∀ k, k ∈ missingMandatoryKeys (_load_repo_env envFile procEnv) ↔
      (k ∈ MANDATORY_KEYS ∧
        truthy (envGet (_load_repo_env envFile procEnv) k) = false) := by
  constructor
  · rcases hu : truthy (envGet (_load_repo_env envFile procEnv) "DB_USER") <;>
    rcases hp : truthy (envGet (_load_repo_env envFile procEnv) "DB_PASSWORD") <;>
    rcases hn : truthy (envGet (_load_repo_env envFile procEnv) "DB_NAME") <;>
      simp_all [get_engine, missingMandatoryKeys, MANDATORY_KEYS]
  · intro k
    simp [missingMandatoryKeys, List.mem_filter, MANDATORY_KEYS]

/-- Claim C2, witness: with only `DB_PASSWORD` set, the error message lists
exactly `DB_USER` and `DB_NAME`. -/
theorem get_engine_missing_error_message_witness :
    missingMandatoryKeys (_load_repo_env [] [("DB_PASSWORD", "pw")]) ≠ [] ∧
    get_engine [] [("DB_PASSWORD", "pw")] =
      Except.error "Missing required env var(s): DB_USER, DB_NAME. Check repo-root .env." :=
  ⟨by decide, (get_engine_missing_error_message [] [("DB_PASSWORD", "pw")] (by decide)).1⟩

/-- Claim C3: `load_sales t` executes exactly the SQL text
`SELECT * FROM t;` against the connection, and the default table name is
`walmart_sales`. -/
theorem load_sales_query_and_default (envFile procEnv : List (String × String))
    (db : String → Except String (List (String × Column))) (t : String)
    (h : ∃ cfg, get_engine envFile procEnv = Except.ok cfg) :
    queriesIn (load_sales envFile procEnv db t).2 = ["SELECT * FROM " ++ t ++ ";"] ∧
    load_sales envFile procEnv db = load_sales envFile procEnv db "walmart_sales" := by
  obtain ⟨cfg, hc⟩ := h
  constructor
  · simp only [load_sales, hc]
    cases db ("SELECT * FROM " ++ t ++ ";") <;> simp [queriesIn]
  · rfl

/-- Claim C3, witness: `load_sales "orders"` on a configured environment
issues exactly `SELECT * FROM orders;`. -/
theorem load_sales_query_and_default_witness :
    (∃ cfg, get_engine [] sampleEnv = Except.ok cfg) ∧
    queriesIn (load_sales [] sampleEnv sampleDb "orders").2 = ["SELECT * FROM orders;"] :=
  ⟨⟨_, rfl⟩, (load_sales_query_and_default [] sampleEnv sampleDb "orders" ⟨_, rfl⟩).1⟩

/-- Claim C4: on a successful query, only a column named `date` is coerced
to the datetime semantic type; every other column is returned unchanged,
and a frame without a `date` column is returned untouched. -/
theorem load_sales_date_column_coercion (envFile procEnv : List (String × String))
    (db : String → Except String (List (String × Column))) (t : String)
    (df : List (String × Column))
    (hok : ∃ cfg, get_engine envFile procEnv = Except.ok cfg)
    (hdb : db ("SELECT * FROM " ++ t ++ ";") = Except.ok df) :
    ∃ df2, (load_sales envFile procEnv db t).1 = Except.ok df2 ∧
      dfColumns df2 = dfColumns df ∧
      (∀ n, n ≠ "date" → dfGet df2 n = dfGet df n) ∧
      (dfGet df "date" = none → df2 = df) ∧
      (∀ c, dfGet df "date" = some c →
        dfGet df2 "date" = some { dtype := Dtype.datetime64, cells := c.cells }) := by
  obtain ⟨cfg, hc⟩ := hok
  simp only [load_sales, hc, hdb]
  rcases hdate : dfGet df "date" with _ | c
  · refine ⟨df, rfl, rfl, fun n _ => rfl, fun _ => rfl, ?_⟩
    intro c hcon
    cases hcon
  · refine ⟨dfSet df "date" (pd_to_datetime c), rfl,
      dfColumns_dfSet df "date" (pd_to_datetime c), ?_, ?_, ?_⟩
    · intro n hn
      exact dfGet_dfSet_ne df "date" n (pd_to_datetime c) hn
    · intro hcon
      cases hcon
    · intro c2 hc2
      cases hc2
      exact dfGet_dfSet_self df "date" (pd_to_datetime c) c hdate

/-- Claim C4, witness: the theorem applied to a concrete two-column frame
whose first column is named `date`. -/
theorem load_sales_date_column_coercion_witness :
    ∃ df2, (load_sales [] sampleEnv sampleDb "walmart_sales").1 = Except.ok df2 ∧
      dfColumns df2 = dfColumns sampleFrame ∧
      (∀ n, n ≠ "date" → dfGet df2 n = dfGet sampleFrame n) ∧
      (dfGet sampleFrame "date" = none → df2 = sampleFrame) ∧
      (∀ c, dfGet sampleFrame "date" = some c →
        dfGet df2 "date" = some { dtype := Dtype.datetime64, cells := c.cells }) :=
  load_sales_date_column_coercion [] sampleEnv sampleDb "walmart_sales" sampleFrame
    ⟨_, rfl⟩ rfl

/-- Claim C5: `DB_HOST` resolves to `"localhost"` when unset and `DB_PORT`
to `"5433"` when unset, and otherwise to the environment value; the three
mandatory keys are never given a default — when any of them is unset the
engine is not built. -/
theorem get_engine_config_resolution (envFile procEnv : List (String × String)) :
    (∀ h, envGet (_load_repo_env envFile procEnv) "DB_HOST" = some h →
      os_getenv_default (_load_repo_env envFile procEnv) "DB_HOST" "localhost" = h) ∧
    (envGet (_load_repo_env envFile procEnv) "DB_HOST" = none →
      os_getenv_default (_load_repo_env envFile procEnv) "DB_HOST" "localhost" = "localhost") ∧
    (∀ pt, envGet (_load_repo_env envFile procEnv) "DB_PORT" = some pt →
      os_getenv_default (_load_repo_env envFile procEnv) "DB_PORT" "5433" = pt) ∧
    (envGet (_load_repo_env envFile procEnv) "DB_PORT" = none →
      os_getenv_default (_load_repo_env envFile procEnv) "DB_PORT" "5433" = "5433") ∧
    (envGet (_load_repo_env envFile procEnv) "DB_USER" = none →
      ∀ cfg, get_engine envFile procEnv ≠ Except.ok cfg) ∧
    (envGet (_load_repo_env envFile procEnv) "DB_PASSWORD" = none →
      ∀ cfg, get_engine envFile procEnv ≠ Except.ok cfg) ∧
    (envGet (_load_repo_env envFile procEnv) "DB_NAME" = none →
      ∀ cfg, get_engine envFile procEnv ≠ Except.ok cfg) := by
  refine ⟨?_, ?_, ?_, ?_, ?_, ?_, ?_⟩
  · intro h hh
    simp [os_getenv_default, hh]
  · intro hh
    simp [os_getenv_default, hh]
  · intro pt hh
    simp [os_getenv_default, hh]
  · intro hh
    simp [os_getenv_default, hh]
  · intro hnone cfg hcfg
    rcases hp : truthy (envGet (_load_repo_env envFile procEnv) "DB_PASSWORD") <;>
    rcases hn : truthy (envGet (_load_repo_env envFile procEnv) "DB_NAME") <;>
      simp_all [get_engine, truthy]
  · intro hnone cfg hcfg
    rcases hu : truthy (envGet (_load_repo_env envFile procEnv) "DB_USER") <;>
    rcases hn : truthy (envGet (_load_repo_env envFile procEnv) "DB_NAME") <;>
      simp_all [get_engine, truthy]
  · intro hnone cfg hcfg
    rcases hu : truthy (envGet (_load_repo_env envFile procEnv) "DB_USER") <;>
    rcases hp : truthy (envGet (_load_repo_env envFile procEnv) "DB_PASSWORD") <;>
      simp_all [get_engine, truthy]

/-- Claim C5, witness: with `DB_HOST` unset in a concrete environment, the
resolved host is `localhost`. -/
theorem get_engine_config_resolution_witness :
    envGet (_load_repo_env [] sampleEnv) "DB_HOST" = none ∧
    os_getenv_default (_load_repo_env [] sampleEnv) "DB_HOST" "localhost" = "localhost" :=
  ⟨rfl, (get_engine_config_resolution [] sampleEnv).2.1 rfl⟩

/-- Claim C6: loading the repo `.env` file never overrides a variable that
is already set in the process environment — the process value wins. -/
theorem load_repo_env_no_override (envFile e : List (String × String)) (k v : String)
    (h : envGet e k = some v) :
    envGet (_load_repo_env envFile e) k = some v :=
  envGet_load_dotenv_of_some envFile e h

/-- Claim C6, witness: process `DB_USER=alice` survives a `.env` file
setting `DB_USER=bob`. -/
theorem load_repo_env_no_override_witness :
    envGet [("DB_USER", "alice")] "DB_USER" = some "alice" ∧
    envGet (_load_repo_env [("DB_USER", "bob")] [("DB_USER", "alice")]) "DB_USER" =
      some "alice" :=
  ⟨rfl, load_repo_env_no_override [("DB_USER", "bob")] [("DB_USER", "alice")]
    "DB_USER" "alice" rfl⟩

/-- Claim C7: every connection `load_sales` acquires is released on every
exit path — the trace is either empty (engine construction failed, nothing
acquired) or exactly connect, query, close, whether the query succeeds or
raises; closes always balance connects. -/
theorem load_sales_releases_connection (envFile procEnv : List (String × String))
    (db : String → Except String (List (String × Column))) (t : String) :
    ((load_sales envFile procEnv db t).2.count DbEvent.close =
      (load_sales envFile procEnv db t).2.count DbEvent.connect) ∧
    ((load_sales envFile procEnv db t).2 = [] ∨
      (load_sales envFile procEnv db t).2 =
        [DbEvent.connect, DbEvent.execQuery ("SELECT * FROM " ++ t ++ ";"), DbEvent.close]) := by
  simp only [load_sales]
  cases get_engine envFile procEnv with
  | error m => simp
  | ok cfg =>
    cases db ("SELECT * FROM " ++ t ++ ";") with
    | error m => simp [List.count_cons, List.count_nil]
    | ok df => simp [List.count_cons, List.count_nil]

/-- Claim C8: the `.env` injection is idempotent on the process
environment — re-running it changes nothing that is already set, so a
second `get_engine` call resolves the same configuration as the first. -/
theorem load_repo_env_idempotent (envFile e : List (String × String)) :
    _load_repo_env envFile (_load_repo_env envFile e) = _load_repo_env envFile e ∧
    get_engine envFile (_load_repo_env envFile e) = get_engine envFile e := by
  constructor
  · exact load_dotenv_idem envFile e
  · simp only [get_engine, _load_repo_env]
    rw [load_dotenv_idem envFile e]

/-- Claim C9: a mandatory key set to a non-empty all-whitespace string is
not treated as missing — `get_engine` succeeds and embeds the whitespace
value verbatim in the connection string. -/
theorem get_engine_whitespace_values (envFile procEnv : List (String × String))
    (u p d : String)
    (hu : envGet (_load_repo_env envFile procEnv) "DB_USER" = some u) (hu2 : u ≠ "")
    (hp : envGet (_load_repo_env envFile procEnv) "DB_PASSWORD" = some p) (hp2 : p ≠ "")
    (hd : envGet (_load_repo_env envFile procEnv) "DB_NAME" = some d) (hd2 : d ≠ "")
    ( _hw : u.data.all Char.isWhitespace = true ∨ p.data.all Char.isWhitespace = true ∨
      d.data.all Char.isWhitespace = true) :
    get_engine envFile procEnv =
      Except.ok
        { url := "postgresql+psycopg2://" ++ u ++ ":" ++ p ++ "@" ++
            os_getenv_default (_load_repo_env envFile procEnv) "DB_HOST" "localhost" ++ ":" ++
            os_getenv_default (_load_repo_env envFile procEnv) "DB_PORT" "5433" ++ "/" ++ d
          pool_pre_ping := true
          future := true } := by
  simp [get_engine, hu, hp, hd, truthy, hu2, hp2, hd2]

/-- Claim C9, witness: `DB_USER` set to a single space is accepted and
embedded verbatim. -/
theorem get_engine_whitespace_values_witness :
    envGet (_load_repo_env [] [("DB_USER", " "), ("DB_PASSWORD", "pw"), ("DB_NAME", "shop")])
      "DB_USER" = some " " ∧
    get_engine [] [("DB_USER", " "), ("DB_PASSWORD", "pw"), ("DB_NAME", "shop")] =
      Except.ok { url := "postgresql+psycopg2:// :pw@localhost:5433/shop"
                  pool_pre_ping := true
                  future := true } :=
  ⟨rfl, get_engine_whitespace_values []
    [("DB_USER", " "), ("DB_PASSWORD", "pw"), ("DB_NAME", "shop")] " " "pw" "shop"
    rfl (by decide) rfl (by decide) rfl (by decide) (Or.inl (by decide))⟩

/-- Claim C10: the configuration-error message is deterministic — it is
exactly the fixed prefix, the missing keys in the fixed order `DB_USER`,
`DB_PASSWORD`, `DB_NAME` restricted to the missing subset and joined by
`", "`, then the fixed suffix. -/
theorem get_engine_error_message_order (envFile procEnv : List (String × String))
    (m : String)
    (h : get_engine envFile procEnv = Except.error m) :
    m = "Missing required env var(s): " ++
      String.intercalate ", " (missingMandatoryKeys (_load_repo_env envFile procEnv)) ++
      ". Check repo-root .env." := by
  rcases hu : truthy (envGet (_load_repo_env envFile procEnv) "DB_USER") <;>
  rcases hp : truthy (envGet (_load_repo_env envFile procEnv) "DB_PASSWORD") <;>
  rcases hn : truthy (envGet (_load_repo_env envFile procEnv) "DB_NAME") <;>
    simp_all [get_engine, missingMandatoryKeys, MANDATORY_KEYS]

/-- Claim C10, witness: with `DB_USER` and `DB_NAME` missing, the message
lists them in the fixed order after the fixed prefix. -/
theorem get_engine_error_message_order_witness :
    get_engine [] [("DB_PASSWORD", "pw")] =
      Except.error "Missing required env var(s): DB_USER, DB_NAME. Check repo-root .env." ∧
    "Missing required env var(s): DB_USER, DB_NAME. Check repo-root .env." =
      "Missing required env var(s): " ++
        String.intercalate ", " (missingMandatoryKeys (_load_repo_env [] [("DB_PASSWORD", "pw")])) ++
        ". Check repo-root .env." :=
  ⟨rfl, get_engine_error_message_order [] [("DB_PASSWORD", "pw")] _ rfl⟩
